import Mathlib

/-!
Shallow embedding of src/carousel.js (a slide-carousel UI component).

The DOM is abstracted as follows: each slide and each indicator element is
represented by the Boolean flag "carries the active class"; the recurring
timer environment (setInterval / clearInterval) is represented explicitly by
a list of live timer ids owned by the instance together with a fresh-id
counter.  Everything else (index state, options, touch coordinates, the
timer handle field) is carried verbatim in a `Carousel` structure, and each
method of the JS class becomes a state-passing function.
-/

/-- The option object of the carousel (constructor lines 16-24). -/
structure Options where
  autoAdvance : Bool
  autoAdvanceTime : Nat
  enableKeyboard : Bool
  enableTouch : Bool
  loop : Bool
  startSlide : Int
deriving DecidableEq, Repr

/-- Default options (constructor lines 16-22). -/
def defaultOptions : Options :=
  { autoAdvance := true
    autoAdvanceTime := 6000
    enableKeyboard := true
    enableTouch := true
    loop := true
    startSlide := 0 }

/-- A caller-supplied override set: any subset of the option keys
(the `options` parameter of the constructor, spread on line 23). -/
structure OptionOverrides where
  autoAdvance : Option Bool
  autoAdvanceTime : Option Nat
  enableKeyboard : Option Bool
  enableTouch : Option Bool
  loop : Option Bool
  startSlide : Option Int
deriving DecidableEq, Repr

/-- The empty override set (`options = {}`). -/
def noOverrides : OptionOverrides :=
  { autoAdvance := none
    autoAdvanceTime := none
    enableKeyboard := none
    enableTouch := none
    loop := none
    startSlide := none }

/-- `{...defaults, ...options}` (line 16-24): overrides win key-by-key. -/
def resolveOptions (o : OptionOverrides) : Options :=
  { autoAdvance := o.autoAdvance.getD defaultOptions.autoAdvance
    autoAdvanceTime := o.autoAdvanceTime.getD defaultOptions.autoAdvanceTime
    enableKeyboard := o.enableKeyboard.getD defaultOptions.enableKeyboard
    enableTouch := o.enableTouch.getD defaultOptions.enableTouch
    loop := o.loop.getD defaultOptions.loop
    startSlide := o.startSlide.getD defaultOptions.startSlide }

/-- State of one carousel instance (constructor fields, lines 16-32), plus
the explicit timer environment: `liveTimers` is the list of ids of timers
created by this instance and not yet cleared, `nextTimerId` produces fresh
ids for `setInterval`.  A slide / indicator element is modelled by the
Boolean "has the active class". -/
structure Carousel where
  options : Options
  currentSlideIndex : Int
  slides : List Bool
  indicators : List Bool
  totalSlides : Nat
  autoAdvanceInterval : Option Nat
  liveTimers : List Nat
  nextTimerId : Nat
  touchStartX : Int
  touchEndX : Int
deriving DecidableEq, Repr

/-- `classList` update pattern of `showSlide` (lines 119-129) on one element
list: remove active from every element, then add active at `index` when the
element access `list[index]` is truthy, i.e. when `0 <= index < length`. -/
def markActive (l : List Bool) (index : Int) : List Bool :=
  let cleared := l.map fun _ => false
  if 0 ≤ index ∧ index < (cleared.length : Int) then
    cleared.set index.toNat true
  else
    cleared

/-- `showSlide(index)` (lines 117-130): clear all active flags, then set the
slide and the indicator at `index` active when those accesses are in range. -/
def Carousel.showSlide (c : Carousel) (index : Int) : Carousel :=
  { c with
    slides := markActive c.slides index
    indicators := markActive c.indicators index }

/-- `stopAutoAdvance()` (lines 176-181): if a handle is set, clear that
interval (the timer id leaves the live set) and null the handle. -/
def Carousel.stopAutoAdvance (c : Carousel) : Carousel :=
  match c.autoAdvanceInterval with
  | some h =>
      { c with
        liveTimers := c.liveTimers.erase h
        autoAdvanceInterval := none }
  | none => c

/-- `startAutoAdvance()` (lines 169-174): stop any existing timer, then
`setInterval` a new one (a fresh id becomes live) and store its handle. -/
def Carousel.startAutoAdvance (c : Carousel) : Carousel :=
  let c1 := c.stopAutoAdvance
  { c1 with
    liveTimers := c1.nextTimerId :: c1.liveTimers
    autoAdvanceInterval := some c1.nextTimerId
    nextTimerId := c1.nextTimerId + 1 }

/-- The auto-advance reset block repeated at lines 150-153 and 162-165:
`if (this.options.autoAdvance) { this.stopAutoAdvance(); this.startAutoAdvance(); }`. -/
def Carousel.resetAutoAdvance (c : Carousel) : Carousel :=
  if c.options.autoAdvance then c.stopAutoAdvance.startAutoAdvance else c

/-- `changeSlide(direction)` (lines 132-154): add `direction` to the index,
wrap (loop mode) or clamp via `Math.max(0, Math.min(idx, totalSlides - 1))`,
re-render, and reset the auto-advance timer when enabled. -/
def Carousel.changeSlide (c : Carousel) (direction : Int) : Carousel :=
  let idx0 := c.currentSlideIndex + direction
  let idx :=
    if c.options.loop then
      if (c.totalSlides : Int) ≤ idx0 then 0
      else if idx0 < 0 then (c.totalSlides : Int) - 1
      else idx0
    else
      max 0 (min idx0 ((c.totalSlides : Int) - 1))
  (({ c with currentSlideIndex := idx }).showSlide idx).resetAutoAdvance

/-- `goToSlide(index)` (lines 156-167): guarded by `0 <= index < totalSlides`;
on valid input set the index, re-render, reset the timer; otherwise no-op. -/
def Carousel.goToSlide (c : Carousel) (index : Int) : Carousel :=
  if 0 ≤ index ∧ index < (c.totalSlides : Int) then
    (({ c with currentSlideIndex := index }).showSlide index).resetAutoAdvance
  else c

/-- `handleSwipe()` (lines 104-115): `diff = touchStartX - touchEndX`; a
gesture with `|diff| > 50` triggers `changeSlide(1)` when `diff > 0`, else
`changeSlide(-1)`; otherwise nothing. -/
def Carousel.handleSwipe (c : Carousel) : Carousel :=
  let diff := c.touchStartX - c.touchEndX
  if 50 < |diff| then
    if 0 < diff then c.changeSlide 1 else c.changeSlide (-1)
  else c

/-- Public API `next()` (lines 184-186). -/
def Carousel.next (c : Carousel) : Carousel := c.changeSlide 1

/-- Public API `prev()` (lines 188-190). -/
def Carousel.prev (c : Carousel) : Carousel := c.changeSlide (-1)

/-- Public API `goTo(index)` (lines 192-194). -/
def Carousel.goTo (c : Carousel) (index : Int) : Carousel := c.goToSlide index

/-- `destroy()` (lines 196-199). -/
def Carousel.destroy (c : Carousel) : Carousel := c.stopAutoAdvance

/-- `init()` (lines 42-53): initial render at the starting index, then start
auto-advance when configured.  (Listener attachment has no modelled state.) -/
def Carousel.init (c : Carousel) : Carousel :=
  let c1 := c.showSlide c.currentSlideIndex
  if c1.options.autoAdvance then c1.startAutoAdvance else c1

/-- The constructor (lines 7-40) for a resolved container whose slide and
indicator element lists are given by their initial active flags: fields are
assigned (line 26-32, `currentSlideIndex := options.startSlide` with no
bounds check), construction aborts when no slides were found (line 34-37),
otherwise `init()` runs. -/
def mkCarousel (options : Options) (slides indicators : List Bool) :
    Option Carousel :=
  let c : Carousel :=
    { options := options
      currentSlideIndex := options.startSlide
      slides := slides
      indicators := indicators
      totalSlides := slides.length
      autoAdvanceInterval := none
      liveTimers := []
      nextTimerId := 0
      touchStartX := 0
      touchEndX := 0 }
  if c.totalSlides = 0 then none else some c.init

/-- One externally triggered operation on an instance, for stating
invariants over arbitrary interaction sequences. -/
inductive CarouselOp where
  | change : Int → CarouselOp
  | goToIdx : Int → CarouselOp
  | start : CarouselOp
  | stop : CarouselOp
  | swipe : Int → Int → CarouselOp
deriving DecidableEq, Repr

/-- Dispatch of one operation: relative / absolute navigation, the
mouseenter / mouseleave handlers (lines 85-90), or a touch gesture
(lines 93-102: record both coordinates, then `handleSwipe`). -/
def Carousel.applyOp (c : Carousel) : CarouselOp → Carousel
  | .change d => c.changeSlide d
  | .goToIdx i => c.goToSlide i
  | .start => c.startAutoAdvance
  | .stop => c.stopAutoAdvance
  | .swipe s e => ({ c with touchStartX := s, touchEndX := e }).handleSwipe

/-- The timer-ownership invariant: the live timers of the instance are
exactly the one referenced by the handle (none when the handle is null). -/
def timerInv (c : Carousel) : Prop :=
  c.liveTimers = c.autoAdvanceInterval.toList

/-- Registry of instances (line 203, `globalCarousels`), as a map. -/
def Registry : Type := String → Option Carousel

/-- Legacy free function `changeSlide(direction, carouselId)` (lines
205-210): look the id up; when found, delegate to the instance method
(mutating the registered instance in place); on a miss do nothing. -/
def changeSlideLegacy (direction : Int) (carouselId : String) (r : Registry) :
    Registry :=
  match r carouselId with
  | some c => fun id =>
      if id = carouselId then some (c.changeSlide direction) else r id
  | none => r

/-- Legacy free function `currentSlide(index, carouselId)` (lines 212-217):
look the id up; when found, delegate to `goToSlide(index - 1)` (1-based to
0-based conversion); on a miss do nothing. -/
def currentSlideLegacy (index : Int) (carouselId : String) (r : Registry) :
    Registry :=
  match r carouselId with
  | some c => fun id =>
      if id = carouselId then some (c.goToSlide (index - 1)) else r id
  | none => r

/-! ### Projection lemmas for the state-passing methods -/

@[simp] theorem showSlide_currentSlideIndex (c : Carousel) (i : Int) :
    (c.showSlide i).currentSlideIndex = c.currentSlideIndex := rfl

@[simp] theorem showSlide_options (c : Carousel) (i : Int) :
    (c.showSlide i).options = c.options := rfl

@[simp] theorem showSlide_totalSlides (c : Carousel) (i : Int) :
    (c.showSlide i).totalSlides = c.totalSlides := rfl

@[simp] theorem showSlide_autoAdvanceInterval (c : Carousel) (i : Int) :
    (c.showSlide i).autoAdvanceInterval = c.autoAdvanceInterval := rfl

@[simp] theorem showSlide_liveTimers (c : Carousel) (i : Int) :
    (c.showSlide i).liveTimers = c.liveTimers := rfl

@[simp] theorem showSlide_slides (c : Carousel) (i : Int) :
    (c.showSlide i).slides = markActive c.slides i := rfl

@[simp] theorem showSlide_indicators (c : Carousel) (i : Int) :
    (c.showSlide i).indicators = markActive c.indicators i := rfl

@[simp] theorem stopAutoAdvance_currentSlideIndex (c : Carousel) :
    c.stopAutoAdvance.currentSlideIndex = c.currentSlideIndex := by
  cases h : c.autoAdvanceInterval <;> simp [Carousel.stopAutoAdvance, h]

@[simp] theorem stopAutoAdvance_options (c : Carousel) :
    c.stopAutoAdvance.options = c.options := by
  cases h : c.autoAdvanceInterval <;> simp [Carousel.stopAutoAdvance, h]

@[simp] theorem stopAutoAdvance_totalSlides (c : Carousel) :
    c.stopAutoAdvance.totalSlides = c.totalSlides := by
  cases h : c.autoAdvanceInterval <;> simp [Carousel.stopAutoAdvance, h]

@[simp] theorem stopAutoAdvance_slides (c : Carousel) :
    c.stopAutoAdvance.slides = c.slides := by
  cases h : c.autoAdvanceInterval <;> simp [Carousel.stopAutoAdvance, h]

@[simp] theorem stopAutoAdvance_indicators (c : Carousel) :
    c.stopAutoAdvance.indicators = c.indicators := by
  cases h : c.autoAdvanceInterval <;> simp [Carousel.stopAutoAdvance, h]

@[simp] theorem stopAutoAdvance_nextTimerId (c : Carousel) :
    c.stopAutoAdvance.nextTimerId = c.nextTimerId := by
  cases h : c.autoAdvanceInterval <;> simp [Carousel.stopAutoAdvance, h]

@[simp] theorem stopAutoAdvance_autoAdvanceInterval (c : Carousel) :
    c.stopAutoAdvance.autoAdvanceInterval = none := by
  cases h : c.autoAdvanceInterval <;> simp [Carousel.stopAutoAdvance, h]

@[simp] theorem startAutoAdvance_currentSlideIndex (c : Carousel) :
    c.startAutoAdvance.currentSlideIndex = c.currentSlideIndex := by
  simp [Carousel.startAutoAdvance]

@[simp] theorem startAutoAdvance_options (c : Carousel) :
    c.startAutoAdvance.options = c.options := by
  simp [Carousel.startAutoAdvance]

@[simp] theorem startAutoAdvance_totalSlides (c : Carousel) :
    c.startAutoAdvance.totalSlides = c.totalSlides := by
  simp [Carousel.startAutoAdvance]

@[simp] theorem startAutoAdvance_slides (c : Carousel) :
    c.startAutoAdvance.slides = c.slides := by
  simp [Carousel.startAutoAdvance]

@[simp] theorem startAutoAdvance_indicators (c : Carousel) :
    c.startAutoAdvance.indicators = c.indicators := by
  simp [Carousel.startAutoAdvance]

@[simp] theorem startAutoAdvance_autoAdvanceInterval (c : Carousel) :
    c.startAutoAdvance.autoAdvanceInterval = some c.nextTimerId := by
  simp [Carousel.startAutoAdvance]

@[simp] theorem startAutoAdvance_liveTimers (c : Carousel) :
    c.startAutoAdvance.liveTimers =
      c.nextTimerId :: c.stopAutoAdvance.liveTimers := by
  simp [Carousel.startAutoAdvance]

@[simp] theorem resetAutoAdvance_currentSlideIndex (c : Carousel) :
    c.resetAutoAdvance.currentSlideIndex = c.currentSlideIndex := by
  unfold Carousel.resetAutoAdvance
  split <;> simp

@[simp] theorem resetAutoAdvance_options (c : Carousel) :
    c.resetAutoAdvance.options = c.options := by
  unfold Carousel.resetAutoAdvance
  split <;> simp

@[simp] theorem resetAutoAdvance_totalSlides (c : Carousel) :
    c.resetAutoAdvance.totalSlides = c.totalSlides := by
  unfold Carousel.resetAutoAdvance
  split <;> simp

@[simp] theorem resetAutoAdvance_slides (c : Carousel) :
    c.resetAutoAdvance.slides = c.slides := by
  unfold Carousel.resetAutoAdvance
  split <;> simp

@[simp] theorem resetAutoAdvance_indicators (c : Carousel) :
    c.resetAutoAdvance.indicators = c.indicators := by
  unfold Carousel.resetAutoAdvance
  split <;> simp

/-! ### How one relative transition moves the index -/

theorem changeSlide_currentSlideIndex (c : Carousel) (d : Int) :
    (c.changeSlide d).currentSlideIndex =
      if c.options.loop then
        if (c.totalSlides : Int) ≤ c.currentSlideIndex + d then 0
        else if c.currentSlideIndex + d < 0 then (c.totalSlides : Int) - 1
        else c.currentSlideIndex + d
      else
        max 0 (min (c.currentSlideIndex + d) ((c.totalSlides : Int) - 1)) := by
  simp [Carousel.changeSlide]

@[simp] theorem changeSlide_options (c : Carousel) (d : Int) :
    (c.changeSlide d).options = c.options := by
  simp [Carousel.changeSlide]

@[simp] theorem changeSlide_totalSlides (c : Carousel) (d : Int) :
    (c.changeSlide d).totalSlides = c.totalSlides := by
  simp [Carousel.changeSlide]

/-- After one relative transition on an instance with at least one slide the
index is inside `[0, totalSlides - 1]`, whatever the mode, the direction and
the previous index. -/
theorem changeSlide_inRange (c : Carousel) (d : Int)
    (hts : 0 < c.totalSlides) :
    0 ≤ (c.changeSlide d).currentSlideIndex ∧
      (c.changeSlide d).currentSlideIndex < (c.totalSlides : Int) := by
  rw [changeSlide_currentSlideIndex]
  by_cases hl : c.options.loop = true <;> simp [hl] <;> omega

/-- A whole sequence of relative transitions keeps the index inside
`[0, totalSlides - 1]` when it starts there. -/
theorem foldl_changeSlide_inRange (ds : List Int) (c : Carousel)
    (hts : 0 < c.totalSlides)
    (hidx : 0 ≤ c.currentSlideIndex ∧
      c.currentSlideIndex < (c.totalSlides : Int)) :
    0 ≤ (ds.foldl Carousel.changeSlide c).currentSlideIndex ∧
      (ds.foldl Carousel.changeSlide c).currentSlideIndex <
        ((ds.foldl Carousel.changeSlide c).totalSlides : Int) := by
  induction ds generalizing c with
  | nil => simpa using hidx
  | cons d ds ih =>
      simp only [List.foldl_cons]
      exact ih (c.changeSlide d)
        (by rw [changeSlide_totalSlides]; exact hts)
        (by rw [changeSlide_totalSlides]; exact changeSlide_inRange c d hts)

/-! ### Timer-ownership machinery -/

theorem timerInv_stopAutoAdvance (c : Carousel) (h : timerInv c) :
    timerInv c.stopAutoAdvance := by
  unfold timerInv at *
  cases hc : c.autoAdvanceInterval with
  | none => simp [Carousel.stopAutoAdvance, hc, hc ▸ h]
  | some t => simp [Carousel.stopAutoAdvance, hc, hc ▸ h]

theorem stopAutoAdvance_liveTimers_nil (c : Carousel) (h : timerInv c) :
    c.stopAutoAdvance.liveTimers = [] := by
  have h2 := timerInv_stopAutoAdvance c h
  unfold timerInv at h2
  simpa using h2

theorem timerInv_startAutoAdvance (c : Carousel) (h : timerInv c) :
    timerInv c.startAutoAdvance := by
  unfold timerInv
  simp [stopAutoAdvance_liveTimers_nil c h]

theorem timerInv_showSlide (c : Carousel) (i : Int) (h : timerInv c) :
    timerInv (c.showSlide i) := h

theorem timerInv_resetAutoAdvance (c : Carousel) (h : timerInv c) :
    timerInv c.resetAutoAdvance := by
  unfold Carousel.resetAutoAdvance
  split
  · exact timerInv_startAutoAdvance _ (timerInv_stopAutoAdvance _ h)
  · exact h

theorem timerInv_changeSlide (c : Carousel) (d : Int) (h : timerInv c) :
    timerInv (c.changeSlide d) := by
  unfold Carousel.changeSlide
  exact timerInv_resetAutoAdvance _ h

theorem timerInv_goToSlide (c : Carousel) (i : Int) (h : timerInv c) :
    timerInv (c.goToSlide i) := by
  unfold Carousel.goToSlide
  split
  · exact timerInv_resetAutoAdvance _ h
  · exact h

theorem timerInv_handleSwipe (c : Carousel) (h : timerInv c) :
    timerInv c.handleSwipe := by
  unfold Carousel.handleSwipe
  dsimp only
  split
  · split <;> exact timerInv_changeSlide _ _ h
  · exact h

theorem timerInv_applyOp (c : Carousel) (op : CarouselOp) (h : timerInv c) :
    timerInv (c.applyOp op) := by
  cases op with
  | change d => exact timerInv_changeSlide c d h
  | goToIdx i => exact timerInv_goToSlide c i h
  | start => exact timerInv_startAutoAdvance c h
  | stop => exact timerInv_stopAutoAdvance c h
  | swipe s e => exact timerInv_handleSwipe _ h

theorem timerInv_foldl_applyOp (ops : List CarouselOp) (c : Carousel)
    (h : timerInv c) : timerInv (ops.foldl Carousel.applyOp c) := by
  induction ops generalizing c with
  | nil => exact h
  | cons op ops ih =>
      simp only [List.foldl_cons]
      exact ih _ (timerInv_applyOp c op h)

theorem timerInv_liveTimers_length (c : Carousel) (h : timerInv c) :
    c.liveTimers.length ≤ 1 := by
  unfold timerInv at h
  rw [h]
  cases c.autoAdvanceInterval <;> simp

theorem timerInv_mkCarousel (o : Options) (slides indicators : List Bool)
    (c : Carousel) (h : mkCarousel o slides indicators = some c) :
    timerInv c := by
  unfold mkCarousel at h
  dsimp only at h
  split at h
  · exact absurd h (by simp)
  · rw [Option.some_inj] at h
    subst h
    unfold Carousel.init
    dsimp only
    split
    · exact timerInv_startAutoAdvance _ rfl
    · rfl

/-! ### Counting active flags after a render -/

theorem count_true_map_false (l : List Bool) :
    ((l.map fun _ => false).count true) = 0 := by
  induction l with
  | nil => rfl
  | cons b l ih => simpa using ih

theorem count_true_set (l : List Bool) (n : Nat) (hn : n < l.length)
    (hl : l.count true = 0) : ((l.set n true).count true) = 1 := by
  induction l generalizing n with
  | nil => simp at hn
  | cons b l ih =>
      have hb : b = false := by
        cases b
        · rfl
        · simp [List.count_cons] at hl
      subst hb
      have hlc : l.count true = 0 := by simpa [List.count_cons] using hl
      cases n with
      | zero => simp [List.count_cons, hlc]
      | succ n =>
          have hn2 : n < l.length := by simpa using hn
          simp [List.count_cons, ih n hn2 hlc]

theorem markActive_count (l : List Bool) (i : Int) :
    ((markActive l i).count true) =
      if 0 ≤ i ∧ i < (l.length : Int) then 1 else 0 := by
  unfold markActive
  dsimp only
  simp only [List.length_map]
  split
  · rename_i hin
    exact count_true_set _ _
      (by simp only [List.length_map]; omega) (count_true_map_false l)
  · exact count_true_map_false l

/-! ### Additional projection lemmas used by the claim theorems -/

@[simp] theorem showSlide_nextTimerId (c : Carousel) (i : Int) :
    (c.showSlide i).nextTimerId = c.nextTimerId := rfl

@[simp] theorem init_currentSlideIndex (c : Carousel) :
    c.init.currentSlideIndex = c.currentSlideIndex := by
  unfold Carousel.init
  dsimp only
  split <;> simp

theorem changeSlide_autoAdvanceInterval_of_auto (c : Carousel) (d : Int)
    (h : c.options.autoAdvance = true) :
    (c.changeSlide d).autoAdvanceInterval = some c.nextTimerId := by
  unfold Carousel.changeSlide Carousel.resetAutoAdvance
  dsimp only
  rw [if_pos (by simpa using h)]
  simp

theorem clamp_repeat_back (n : Nat) (c : Carousel)
    (hloop : c.options.loop = false) (hts : 0 < c.totalSlides)
    (h : c.currentSlideIndex = 0) :
    ((List.replicate n (-1 : Int)).foldl Carousel.changeSlide
        c).currentSlideIndex = 0 := by
  induction n generalizing c with
  | zero => simpa using h
  | succ n ih =>
      rw [List.replicate_succ, List.foldl_cons]
      refine ih _ ?_ ?_ ?_
      · rw [changeSlide_options]; exact hloop
      · rw [changeSlide_totalSlides]; exact hts
      · rw [changeSlide_currentSlideIndex]
        simp only [hloop, if_false, Bool.false_eq_true, h]
        omega

theorem clamp_repeat_front (n : Nat) (c : Carousel)
    (hloop : c.options.loop = false) (hts : 0 < c.totalSlides)
    (h : c.currentSlideIndex = (c.totalSlides : Int) - 1) :
    ((List.replicate n (1 : Int)).foldl Carousel.changeSlide
        c).currentSlideIndex = (c.totalSlides : Int) - 1 := by
  induction n generalizing c with
  | zero => simpa using h
  | succ n ih =>
      rw [List.replicate_succ, List.foldl_cons]
      have hl1 : (c.changeSlide 1).options.loop = false := by
        rw [changeSlide_options]; exact hloop
      have hts1 : 0 < (c.changeSlide 1).totalSlides := by
        rw [changeSlide_totalSlides]; exact hts
      have h1 : (c.changeSlide 1).currentSlideIndex =
          ((c.changeSlide 1).totalSlides : Int) - 1 := by
        rw [changeSlide_totalSlides, changeSlide_currentSlideIndex]
        simp only [hloop, if_false, Bool.false_eq_true, h]
        omega
      have h2 := ih _ hl1 hts1 h1
      rwa [changeSlide_totalSlides] at h2

/-! ### Concrete instances used by witnesses -/

/-- A three-slide carousel in its freshly rendered default state. -/
def sampleCarousel : Carousel :=
  { options := defaultOptions
    currentSlideIndex := 0
    slides := [true, false, false]
    indicators := [true, false, false]
    totalSlides := 3
    autoAdvanceInterval := none
    liveTimers := []
    nextTimerId := 0
    touchStartX := 0
    touchEndX := 0 }

/-- The same three-slide carousel configured in clamp mode. -/
def clampCarousel : Carousel :=
  { sampleCarousel with options := { defaultOptions with loop := false } }

/-- A registry holding one instance under the id "main". -/
def sampleRegistry : Registry :=
  fun id => if id = "main" then some sampleCarousel else none

/-! ### Claim theorems -/

/-- C1: in loop mode, for every sequence of unit-direction relative
transitions applied to an instance whose index starts in
`[0, totalSlides - 1]` with `totalSlides > 0`, the index remains in
`[0, totalSlides - 1]`; an index reaching `totalSlides` wraps to `0` and an
index below `0` wraps to `totalSlides - 1`. -/
theorem C1_loop_wrap_invariant (c : Carousel) (ds : List Int)
    (hloop : c.options.loop = true) (hts : 0 < c.totalSlides)
    (hidx : 0 ≤ c.currentSlideIndex ∧
      c.currentSlideIndex < (c.totalSlides : Int))
    (_hds : ∀ d ∈ ds, d = 1 ∨ d = -1) :
    (0 ≤ (ds.foldl Carousel.changeSlide c).currentSlideIndex ∧
      (ds.foldl Carousel.changeSlide c).currentSlideIndex <
        ((ds.foldl Carousel.changeSlide c).totalSlides : Int)) ∧
    (c.currentSlideIndex = (c.totalSlides : Int) - 1 →
      (c.changeSlide 1).currentSlideIndex = 0) ∧
    (c.currentSlideIndex = 0 →
      (c.changeSlide (-1)).currentSlideIndex = (c.totalSlides : Int) - 1) := by
  refine ⟨foldl_changeSlide_inRange ds c hts hidx, ?_, ?_⟩
  · intro h
    rw [changeSlide_currentSlideIndex]
    simp only [hloop, if_true, h]
    split_ifs <;> omega
  · intro h
    rw [changeSlide_currentSlideIndex]
    simp only [hloop, if_true, h]
    split_ifs <;> omega

theorem C1_loop_wrap_invariant_witness :
    0 ≤ (([1, -1, 1, 1, 1] : List Int).foldl Carousel.changeSlide
        sampleCarousel).currentSlideIndex ∧
    (([1, -1, 1, 1, 1] : List Int).foldl Carousel.changeSlide
        sampleCarousel).currentSlideIndex <
      ((([1, -1, 1, 1, 1] : List Int).foldl Carousel.changeSlide
        sampleCarousel).totalSlides : Int) :=
  (C1_loop_wrap_invariant sampleCarousel [1, -1, 1, 1, 1] (by decide)
    (by decide) (by decide) (by decide)).1

/-- C2: in clamp mode with `totalSlides > 0`, repeated `changeSlide(-1)`
from index `0` leaves the index at `0`, repeated `changeSlide(1)` from
`totalSlides - 1` leaves it at `totalSlides - 1`, and any single relative
transition saturates into `[0, totalSlides - 1]`. -/
theorem C2_clamp_saturates (c : Carousel)
    (hloop : c.options.loop = false) (hts : 0 < c.totalSlides) :
    (c.currentSlideIndex = 0 → ∀ n : Nat,
      ((List.replicate n (-1 : Int)).foldl Carousel.changeSlide
          c).currentSlideIndex = 0) ∧
    (c.currentSlideIndex = (c.totalSlides : Int) - 1 → ∀ n : Nat,
      ((List.replicate n (1 : Int)).foldl Carousel.changeSlide
          c).currentSlideIndex = (c.totalSlides : Int) - 1) ∧
    (∀ d : Int, 0 ≤ (c.changeSlide d).currentSlideIndex ∧
      (c.changeSlide d).currentSlideIndex < (c.totalSlides : Int)) :=
  ⟨fun h n => clamp_repeat_back n c hloop hts h,
   fun h n => clamp_repeat_front n c hloop hts h,
   fun d => changeSlide_inRange c d hts⟩

theorem C2_clamp_saturates_witness :
    ((List.replicate 4 (-1 : Int)).foldl Carousel.changeSlide
        clampCarousel).currentSlideIndex = 0 :=
  (C2_clamp_saturates clampCarousel (by decide) (by decide)).1 (by decide) 4

/-- C3: `goToSlide(i)` on an out-of-range `i` leaves the whole instance
state unchanged (in particular index, active markers and timer handle) and
raises no error; on in-range `i` it sets the index to `i` and re-renders. -/
theorem C3_goToSlide_range_guard (c : Carousel) (i : Int) :
    ((i < 0 ∨ (c.totalSlides : Int) ≤ i) → c.goToSlide i = c) ∧
    ((0 ≤ i ∧ i < (c.totalSlides : Int)) →
      (c.goToSlide i).currentSlideIndex = i ∧
      (c.goToSlide i).slides = markActive c.slides i ∧
      (c.goToSlide i).indicators = markActive c.indicators i) := by
  unfold Carousel.goToSlide
  constructor
  · intro h
    rw [if_neg (by omega)]
  · intro h
    rw [if_pos h]
    refine ⟨by simp, by simp, by simp⟩

theorem C3_goToSlide_range_guard_witness :
    sampleCarousel.goToSlide 5 = sampleCarousel ∧
    (sampleCarousel.goToSlide 2).currentSlideIndex = 2 :=
  ⟨(C3_goToSlide_range_guard sampleCarousel 5).1 (by decide),
   ((C3_goToSlide_range_guard sampleCarousel 2).2 (by decide)).1⟩

/-- C4 (counterexample): on a three-slide instance, the render
`showSlide 5` leaves no slide active at all, so "exactly one slide element
carries active status after any render, for any integer index" is false. -/
theorem C4_counterexample :
    ((mkCarousel defaultOptions [false, false, false]
        [false, false, false]).map
      fun c => (c.showSlide 5).slides.count true) ≠ some 1 := by
  decide

/-- C4 (amended): after `showSlide index`, at most one slide and at most
one indicator carry active status; exactly one slide when `index` is inside
the slide list bounds, and exactly one indicator when the indicator count
covers `index`; an out-of-range render leaves no element active. -/
theorem C4_render_active_counts (c : Carousel) (index : Int) :
    ((0 ≤ index ∧ index < (c.slides.length : Int)) →
      (c.showSlide index).slides.count true = 1) ∧
    ((0 ≤ index ∧ index < (c.indicators.length : Int)) →
      (c.showSlide index).indicators.count true = 1) ∧
    (¬ (0 ≤ index ∧ index < (c.slides.length : Int)) →
      (c.showSlide index).slides.count true = 0) ∧
    (¬ (0 ≤ index ∧ index < (c.indicators.length : Int)) →
      (c.showSlide index).indicators.count true = 0) ∧
    (c.showSlide index).slides.count true ≤ 1 ∧
    (c.showSlide index).indicators.count true ≤ 1 := by
  simp only [showSlide_slides, showSlide_indicators, markActive_count]
  refine ⟨fun h => by rw [if_pos h], fun h => by rw [if_pos h],
    fun h => by rw [if_neg h], fun h => by rw [if_neg h], ?_, ?_⟩ <;>
    split <;> omega

theorem C4_render_active_counts_witness :
    (sampleCarousel.showSlide 1).slides.count true = 1 ∧
    (sampleCarousel.showSlide 5).slides.count true = 0 :=
  ⟨(C4_render_active_counts sampleCarousel 1).1 (by decide),
   (C4_render_active_counts sampleCarousel 5).2.2.1 (by decide)⟩

/-- C5: the live-timer count of an instance stays at most one across any
sequence of navigation, swipe and timer operations; `startAutoAdvance`
never double-schedules, and a relative transition with auto-advance enabled
cancels and recreates the timer (one live timer, fresh handle set). -/
theorem C5_at_most_one_timer (c : Carousel) (h : timerInv c) :
    (∀ ops : List CarouselOp,
      timerInv (ops.foldl Carousel.applyOp c) ∧
      (ops.foldl Carousel.applyOp c).liveTimers.length ≤ 1) ∧
    c.startAutoAdvance.liveTimers.length = 1 ∧
    (∀ d : Int, c.options.autoAdvance = true →
      (c.changeSlide d).liveTimers = [c.nextTimerId] ∧
      (c.changeSlide d).autoAdvanceInterval = some c.nextTimerId) := by
  refine ⟨fun ops => ?_, ?_, fun d hauto => ?_⟩
  · have hinv := timerInv_foldl_applyOp ops c h
    exact ⟨hinv, timerInv_liveTimers_length _ hinv⟩
  · simp [stopAutoAdvance_liveTimers_nil c h]
  · have hinv := timerInv_changeSlide c d h
    have hh := changeSlide_autoAdvanceInterval_of_auto c d hauto
    unfold timerInv at hinv
    rw [hh] at hinv
    exact ⟨hinv, hh⟩

theorem C5_at_most_one_timer_witness :
    ([CarouselOp.start, CarouselOp.start, CarouselOp.change 1,
        CarouselOp.goToIdx 2].foldl Carousel.applyOp
      sampleCarousel).liveTimers.length ≤ 1 :=
  ((C5_at_most_one_timer sampleCarousel rfl).1
    [CarouselOp.start, CarouselOp.start, CarouselOp.change 1,
      CarouselOp.goToIdx 2]).2

/-- C6: with `diff = touchStartX - touchEndX`, a swipe with `|diff| <= 50`
triggers no transition, `diff > 50` triggers exactly one forward relative
transition, and `diff < -50` triggers exactly one backward one. -/
theorem C6_swipe_threshold (c : Carousel) :
    (|c.touchStartX - c.touchEndX| ≤ 50 → c.handleSwipe = c) ∧
    (50 < c.touchStartX - c.touchEndX → c.handleSwipe = c.changeSlide 1) ∧
    (c.touchStartX - c.touchEndX < -50 →
      c.handleSwipe = c.changeSlide (-1)) := by
  unfold Carousel.handleSwipe
  dsimp only
  refine ⟨fun h => ?_, fun h => ?_, fun h => ?_⟩
  · rw [if_neg (not_lt.mpr h)]
  · rw [if_pos (lt_of_lt_of_le h (le_abs_self _)),
      if_pos (by omega)]
  · rw [if_pos (lt_of_lt_of_le (by omega) (neg_le_abs _)),
      if_neg (by omega)]

theorem C6_swipe_threshold_witness :
    ({ sampleCarousel with touchStartX := 49, touchEndX := 0 }
        : Carousel).handleSwipe =
      { sampleCarousel with touchStartX := 49, touchEndX := 0 } :=
  (C6_swipe_threshold _).1 (by decide)

/-- C7: the legacy absolute-index function delegates to the registered
instance with the 1-based index converted to 0-based (`i` maps to `i - 1`)
and leaves every other entry alone; for an identifier not in the registry,
neither legacy function changes anything and no error is raised. -/
theorem C7_legacy_delegation (r : Registry) (id : String) (i d : Int) :
    (∀ c : Carousel, r id = some c →
      currentSlideLegacy i id r id = some (c.goToSlide (i - 1)) ∧
      ∀ j : String, j ≠ id → currentSlideLegacy i id r j = r j) ∧
    (r id = none →
      currentSlideLegacy i id r = r ∧ changeSlideLegacy d id r = r) := by
  constructor
  · intro c hc
    constructor
    · unfold currentSlideLegacy
      rw [hc]
      simp
    · intro j hj
      unfold currentSlideLegacy
      rw [hc]
      simp [hj]
  · intro hn
    refine ⟨?_, ?_⟩
    · unfold currentSlideLegacy
      rw [hn]
    · unfold changeSlideLegacy
      rw [hn]

theorem C7_legacy_delegation_witness :
    currentSlideLegacy 3 "main" sampleRegistry "main" =
      some (sampleCarousel.goToSlide (3 - 1)) ∧
    currentSlideLegacy 3 "ghost" sampleRegistry = sampleRegistry ∧
    changeSlideLegacy 1 "ghost" sampleRegistry = sampleRegistry :=
  ⟨((C7_legacy_delegation sampleRegistry "main" 3 1).1 sampleCarousel
      (by decide)).1,
   ((C7_legacy_delegation sampleRegistry "ghost" 3 1).2 (by decide)).1,
   ((C7_legacy_delegation sampleRegistry "ghost" 3 1).2 (by decide)).2⟩

/-- C8: a three-slide carousel in loop mode starting at index 0 visits the
indices 1, 2, 0 under three consecutive `next()` calls. -/
theorem C8_next_three_times :
    ((mkCarousel defaultOptions [true, false, false]
        [true, false, false]).map
      fun c => (c.next.currentSlideIndex,
        c.next.next.currentSlideIndex,
        c.next.next.next.currentSlideIndex)) = some (1, 2, 0) := by
  decide

/-- C9 (counterexample): constructing with the override `startSlide = 5`
over three slides leaves `currentSlideIndex = 5`, outside
`[0, totalSlides - 1]`: the starting index is not normalized. -/
theorem C9_counterexample :
    ((mkCarousel (resolveOptions { noOverrides with startSlide := some 5 })
        [false, false, false] [false, false, false]).map
      fun c => decide (0 ≤ c.currentSlideIndex ∧
        c.currentSlideIndex < (c.totalSlides : Int))) = some false := by
  decide

/-- C9 (amended): on successful construction the starting index is taken
from the configuration unnormalized: for every override with
`startSlide = s`, after construction `currentSlideIndex = s`, so it lies in
`[0, totalSlides - 1]` only when `s` already does (the initial render's
bounds guard merely shows nothing for an out-of-range `s`). -/
theorem C9_startSlide_unnormalized (o : OptionOverrides) (s : Int)
    (slides indicators : List Bool) (hs : o.startSlide = some s)
    (hne : slides ≠ []) :
    (mkCarousel (resolveOptions o) slides indicators).map
      (fun c => c.currentSlideIndex) = some s := by
  unfold mkCarousel
  dsimp only
  rw [if_neg (fun hz => hne (List.length_eq_zero.mp hz))]
  simp [resolveOptions, hs]

theorem C9_startSlide_unnormalized_witness :
    (mkCarousel (resolveOptions { noOverrides with startSlide := some 7 })
        [false, false, false] [false, false, false]).map
      (fun c => c.currentSlideIndex) = some 7 :=
  C9_startSlide_unnormalized _ 7 _ _ (by decide) (by decide)

/-- C10 (implicit): one `changeSlide` call with any integer direction and
any prior index (even out of range) re-establishes
`0 <= currentSlideIndex < totalSlides` whenever `totalSlides >= 1`, in both
loop and clamp mode. -/
theorem C10_changeSlide_reestablishes (c : Carousel) (d : Int)
    (hts : 1 ≤ c.totalSlides) :
    0 ≤ (c.changeSlide d).currentSlideIndex ∧
      (c.changeSlide d).currentSlideIndex <
        ((c.changeSlide d).totalSlides : Int) := by
  rw [changeSlide_totalSlides]
  exact changeSlide_inRange c d hts

theorem C10_changeSlide_reestablishes_witness :
    0 ≤ (({ sampleCarousel with currentSlideIndex := 42 }
        : Carousel).changeSlide 5).currentSlideIndex ∧
    (({ sampleCarousel with currentSlideIndex := 42 }
        : Carousel).changeSlide 5).currentSlideIndex <
      ((({ sampleCarousel with currentSlideIndex := 42 }
        : Carousel).changeSlide 5).totalSlides : Int) :=
  C10_changeSlide_reestablishes _ 5 (by decide)
